import Mathlib

/-!
Shallow embedding of the journal-entry HTTP handlers (POST/GET/DELETE/PUT on
/api/entry) and the relational state they act on.

The database holds three tables: Entry (id is the auto-increment primary key),
EntryCompetency (join table), and Competency (reference data).  Timestamps are
modelled as natural numbers.  Each SQL statement executed by the handlers is
embedded as a pure function on the database state; each handler is a function
from session, request data and state to the new state and the response.
-/

namespace EntryService

structure EntryRow where
  id : Nat
  user : String
  text : String
  createdAt : Nat
deriving DecidableEq, Repr

structure EntryCompetencyRow where
  entryID : Nat
  competencyID : Nat
deriving DecidableEq, Repr

structure CompetencyRow where
  id : Nat
  skill : String
  description : String
deriving DecidableEq, Repr

/-- The database state.  `nextEntryId` models the AUTO_INCREMENT counter of the
Entry table (MySQL starts it at 1). -/
structure DB where
  entries : List EntryRow
  entryCompetencies : List EntryCompetencyRow
  competencies : List CompetencyRow
  nextEntryId : Nat
deriving DecidableEq, Repr

/-- The session, as the handlers see it: `getServerSession` yields either no
session or a session carrying `user.email`.  The handlers guard with
`!session || !session.user?.email`, under which an empty-string email is falsy
and also rejected; we keep the email as the `some` payload and treat `some ""`
as the falsy-email case. -/
def authedEmail : Option String → Option String
  | none => none
  | some email => if email = "" then none else some email

def decimalDigitsToNat (acc : Nat) : List Char → Nat
  | [] => acc
  | c :: cs => decimalDigitsToNat (acc * 10 + (c.toNat - 48)) cs

/-- MySQL coercion of a string parameter compared against an integer column:
a decimal-digit prefix parses to its value, a string with no leading digits
(such as the literal segment that `pop()` yields for the bare collection path)
coerces to 0. -/
def mysqlStringToNat (s : String) : Nat :=
  decimalDigitsToNat 0 (s.data.takeWhile Char.isDigit)

/-- JS `url.pathname.split('/').pop()`: for every string this equals the
substring after the final slash — the whole path when it contains no slash,
and the empty string when the path ends in a slash (`split` then yields a
trailing empty segment).  Implemented structurally over the character list. -/
def lastPathSegment (pathname : String) : String :=
  String.mk ((pathname.data.reverse.takeWhile (fun c => c != '/')).reverse)

/-- INSERT INTO Entry (user, text) VALUES (?, ?) — the id column is assigned
from the auto-increment counter and createdAt from the database clock `now`;
returns the new state together with `insertId`. -/
def insertEntry (db : DB) (user text : String) (now : Nat) : DB × Nat :=
  let id := db.nextEntryId
  ({ db with
      entries := db.entries ++ [⟨id, user, text, now⟩],
      nextEntryId := id + 1 }, id)

/-- INSERT INTO EntryCompetency (entryID, competencyID) VALUES (?, ?). -/
def insertEntryCompetency (db : DB) (eid cid : Nat) : DB :=
  { db with entryCompetencies := db.entryCompetencies ++ [⟨eid, cid⟩] }

/-- DELETE FROM EntryCompetency WHERE entryID = ? — filtered by entry id only,
with no owner condition. -/
def deleteEntryCompetenciesFor (db : DB) (eid : Nat) : DB :=
  { db with
      entryCompetencies := db.entryCompetencies.filter (fun r => r.entryID != eid) }

/-- DELETE FROM Entry WHERE id = ? AND user = ? — returns the new state and
`affectedRows`, the number of rows removed. -/
def deleteEntryByIdAndUser (db : DB) (eid : Nat) (user : String) : DB × Nat :=
  let hit := fun (r : EntryRow) => r.id == eid && r.user == user
  ({ db with entries := db.entries.filter (fun r => !(hit r)) },
   (db.entries.filter hit).length)

/-- UPDATE Entry SET text = ? WHERE id = ? AND user = ? — returns the new state
and `affectedRows`.  The mysql2 client connects with CLIENT_FOUND_ROWS, so for
UPDATE this counts the rows *matched* by the WHERE clause. -/
def updateEntryText (db : DB) (eid : Nat) (user text : String) : DB × Nat :=
  let hit := fun (r : EntryRow) => r.id == eid && r.user == user
  ({ db with
      entries := db.entries.map (fun r => if hit r then { r with text := text } else r) },
   (db.entries.filter hit).length)

/-- LEFT JOIN Competency c ON ec.competencyID = c.id, restricted to one
EntryCompetency row: one joined row per matching Competency row (carrying
c.id), or a single row with SQL NULL when no Competency matches. -/
def leftJoinComp (db : DB) (r : EntryCompetencyRow) : List (Option Nat) :=
  let cs := db.competencies.filter (fun c => c.id == r.competencyID)
  if cs.isEmpty then [none] else cs.map (fun c => some c.id)

/-- The per-entry group produced by
LEFT JOIN EntryCompetency ec ON e.id = ec.entryID followed by the Competency
join, aggregated with JSON_ARRAYAGG(c.id).  MySQL's JSON_ARRAYAGG does not
skip SQL NULL: an entry with no tag rows joins to a single all-NULL row, so
its aggregate is the one-element array [null], not the empty array. -/
def aggCompetencies (db : DB) (eid : Nat) : List (Option Nat) :=
  let tagRows := db.entryCompetencies.filter (fun r => r.entryID == eid)
  if tagRows.isEmpty then [none] else tagRows.flatMap (leftJoinComp db)

/-- One row of the GET response body: e.id, e.text, e.createdAt and the
aggregated competencies array. -/
structure EntryOut where
  id : Nat
  text : String
  createdAt : Nat
  competencies : List (Option Nat)
deriving DecidableEq, Repr

/-- Insert an entry row into a list kept in descending-id order. -/
def insertByIdDesc (e : EntryRow) : List EntryRow → List EntryRow
  | [] => [e]
  | x :: xs => if x.id ≤ e.id then e :: x :: xs else x :: insertByIdDesc e xs

/-- ORDER BY e.id DESC. -/
def sortByIdDesc (l : List EntryRow) : List EntryRow :=
  l.foldr insertByIdDesc []

def entryToOut (db : DB) (e : EntryRow) : EntryOut :=
  ⟨e.id, e.text, e.createdAt, aggCompetencies db e.id⟩

/-- The GET SELECT: WHERE e.user = ?, GROUP BY e.id, ORDER BY e.id DESC, one
output row per entry.  (The query is only well-formed under ONLY_FULL_GROUP_BY
because e.id is the primary key, so each group is a single entry row; theorems
that depend on grouping carry the id-uniqueness hypothesis explicitly.) -/
def selectEntriesForUser (db : DB) (user : String) : List EntryOut :=
  (sortByIdDesc (db.entries.filter (fun e => e.user == user))).map (entryToOut db)

/-- Response of the POST handler. -/
inductive PostResponse where
  | unauth
  | ok (id : Nat) (text : String) (createdAt : Nat) (competencies : List Nat)
deriving DecidableEq, Repr

def PostResponse.status : PostResponse → Nat
  | .unauth => 401
  | .ok .. => 200

/-- Response of the DELETE and PUT handlers. -/
inductive SimpleResponse where
  | unauth
  | missingId
  | notFound
  | ok
deriving DecidableEq, Repr

def SimpleResponse.status : SimpleResponse → Nat
  | .unauth => 401
  | .missingId => 400
  | .notFound => 404
  | .ok => 200

/-- The POST handler: auth guard, INSERT INTO Entry, one INSERT INTO
EntryCompetency per id of the request body's competencyIDs in order, then the
JSON response built with a fresh `new Date()` (`respNow`), not the stored
createdAt column value (`dbNow`). -/
def POST (db : DB) (session : Option String) (text : String)
    (competencyIDs : List Nat) (dbNow respNow : Nat) : DB × PostResponse :=
  match authedEmail session with
  | none => (db, .unauth)
  | some email =>
    let (db1, entryID) := insertEntry db email text dbNow
    let db2 := competencyIDs.foldl (fun d cid => insertEntryCompetency d entryID cid) db1
    (db2, .ok entryID text respNow competencyIDs)

/-- The GET handler: an unauthenticated caller receives the empty array with
status 200 (NextResponse.json with no init defaults to 200); an authenticated
caller receives the SELECT result with status 200. -/
def GET (db : DB) (session : Option String) : List EntryOut × Nat :=
  match authedEmail session with
  | none => ([], 200)
  | some email => (selectEntriesForUser db email, 200)

/-- The DELETE handler: auth guard, id from the trailing path segment (400 only
when that segment is falsy, i.e. empty), then DELETE FROM EntryCompetency by
entry id alone, then DELETE FROM Entry by id AND user, 404 when the latter
affected zero rows. -/
def DELETE (db : DB) (session : Option String) (pathname : String) :
    DB × SimpleResponse :=
  match authedEmail session with
  | none => (db, .unauth)
  | some email =>
    let entryID := lastPathSegment pathname
    if entryID = "" then (db, .missingId)
    else
      let eid := mysqlStringToNat entryID
      let db1 := deleteEntryCompetenciesFor db eid
      let (db2, affected) := deleteEntryByIdAndUser db1 eid email
      if affected = 0 then (db2, .notFound) else (db2, .ok)

/-- The PUT handler: auth guard, id from the trailing path segment (400 only
when empty), UPDATE of the text filtered by id AND user, 404 when zero rows
matched, otherwise delete all of the entry's tag rows and re-insert one per id
of competencyIDs in order. -/
def PUT (db : DB) (session : Option String) (pathname : String) (text : String)
    (competencyIDs : List Nat) : DB × SimpleResponse :=
  match authedEmail session with
  | none => (db, .unauth)
  | some email =>
    let entryID := lastPathSegment pathname
    if entryID = "" then (db, .missingId)
    else
      let eid := mysqlStringToNat entryID
      let (db1, matched) := updateEntryText db eid email text
      if matched = 0 then (db1, .notFound)
      else
        let db2 := deleteEntryCompetenciesFor db1 eid
        let db3 := competencyIDs.foldl (fun d cid => insertEntryCompetency d eid cid) db2
        (db3, .ok)

/-- The competency ids currently attached to an entry: the competencyID column
of its EntryCompetency rows, in table order. -/
def tagsOf (db : DB) (eid : Nat) : List Nat :=
  (db.entryCompetencies.filter (fun r => r.entryID == eid)).map (·.competencyID)

/-- Whether some Entry row has the given id and owner. -/
def ownedEntryExists (db : DB) (eid : Nat) (user : String) : Bool :=
  db.entries.any (fun r => r.id == eid && r.user == user)

/-! Helper lemmas about the embedded statements. -/

theorem authedEmail_some {email : String} (h : email ≠ "") :
    authedEmail (some email) = some email := by
  simp [authedEmail, h]

theorem foldl_insertEntryCompetency (eid : Nat) (cids : List Nat) (db : DB) :
    cids.foldl (fun d cid => insertEntryCompetency d eid cid) db
      = { db with
            entryCompetencies := db.entryCompetencies ++ cids.map (fun c => ⟨eid, c⟩) } := by
  induction cids generalizing db with
  | nil => cases db; simp
  | cons c cs ih =>
    rw [List.foldl_cons, ih]
    simp [insertEntryCompetency, List.append_assoc]

theorem map_update_of_no_hit {l : List EntryRow} {p : EntryRow → Bool}
    {f : EntryRow → EntryRow} (h : ∀ r ∈ l, p r = false) :
    l.map (fun r => if p r then f r else r) = l := by
  induction l with
  | nil => rfl
  | cons x xs ih =>
    have hx : p x = false := h x (by simp)
    simp [hx, ih (fun r hr => h r (by simp [hr]))]

theorem filter_keep_of_no_hit {l : List EntryRow} {p : EntryRow → Bool}
    (h : ∀ r ∈ l, p r = false) :
    l.filter (fun r => !(p r)) = l := by
  refine List.filter_eq_self.mpr ?_
  intro r hr
  simp [h r hr]

theorem insertByIdDesc_perm (e : EntryRow) (l : List EntryRow) :
    (insertByIdDesc e l).Perm (e :: l) := by
  induction l with
  | nil => simp [insertByIdDesc]
  | cons x xs ih =>
    by_cases h : x.id ≤ e.id
    · simp [insertByIdDesc, h]
    · simp only [insertByIdDesc, if_neg h]
      exact (ih.cons x).trans (List.Perm.swap e x xs)

theorem sortByIdDesc_perm (l : List EntryRow) : (sortByIdDesc l).Perm l := by
  induction l with
  | nil => simp [sortByIdDesc]
  | cons x xs ih =>
    simp only [sortByIdDesc, List.foldr_cons]
    exact (insertByIdDesc_perm x _).trans (ih.cons x)

theorem insertByIdDesc_pairwise (e : EntryRow) (l : List EntryRow)
    (h : l.Pairwise (fun a b => b.id ≤ a.id)) :
    (insertByIdDesc e l).Pairwise (fun a b => b.id ≤ a.id) := by
  induction l with
  | nil => simp [insertByIdDesc]
  | cons x xs ih =>
    rcases List.pairwise_cons.mp h with ⟨hx, hxs⟩
    by_cases hc : x.id ≤ e.id
    · simp only [insertByIdDesc, if_pos hc]
      refine List.pairwise_cons.mpr ⟨?_, h⟩
      intro b hb
      rcases List.mem_cons.mp hb with rfl | hb
      · exact hc
      · exact (hx b hb).trans hc
    · simp only [insertByIdDesc, if_neg hc]
      refine List.pairwise_cons.mpr ⟨?_, ih hxs⟩
      intro b hb
      rcases List.mem_cons.mp ((insertByIdDesc_perm e xs).mem_iff.mp hb) with rfl | hb
      · exact le_of_not_le hc
      · exact hx b hb

theorem sortByIdDesc_pairwise (l : List EntryRow) :
    (sortByIdDesc l).Pairwise (fun a b => b.id ≤ a.id) := by
  induction l with
  | nil => simp [sortByIdDesc]
  | cons x xs ih =>
    simp only [sortByIdDesc, List.foldr_cons]
    exact insertByIdDesc_pairwise x _ ih

/-! Characterizations of the handlers on an authenticated session. -/

theorem GET_authed {email : String} (db : DB) (hmail : email ≠ "") :
    GET db (some email) = (selectEntriesForUser db email, 200) := by
  simp [GET, authedEmail_some hmail]

theorem POST_authed {email : String} (db : DB) (text : String) (cids : List Nat)
    (dbNow respNow : Nat) (hmail : email ≠ "") :
    POST db (some email) text cids dbNow respNow
      = ({ db with
            entries := db.entries ++ [⟨db.nextEntryId, email, text, dbNow⟩],
            entryCompetencies :=
              db.entryCompetencies ++ cids.map (fun c => ⟨db.nextEntryId, c⟩),
            nextEntryId := db.nextEntryId + 1 },
         .ok db.nextEntryId text respNow cids) := by
  simp [POST, authedEmail_some hmail, insertEntry, foldl_insertEntryCompetency]

theorem DELETE_authed {email pathname : String} (db : DB)
    (hmail : email ≠ "") (hseg : lastPathSegment pathname ≠ "") :
    DELETE db (some email) pathname
      = ({ db with
            entries := db.entries.filter (fun r =>
              !(r.id == mysqlStringToNat (lastPathSegment pathname) && r.user == email)),
            entryCompetencies := db.entryCompetencies.filter (fun r =>
              r.entryID != mysqlStringToNat (lastPathSegment pathname)) },
         if (db.entries.filter (fun r =>
              r.id == mysqlStringToNat (lastPathSegment pathname) && r.user == email)).length = 0
         then .notFound else .ok) := by
  by_cases h : (db.entries.filter (fun r =>
      r.id == mysqlStringToNat (lastPathSegment pathname) && r.user == email)).length = 0
  · simp [DELETE, authedEmail_some hmail, hseg, deleteEntryCompetenciesFor,
      deleteEntryByIdAndUser, h]
  · simp [DELETE, authedEmail_some hmail, hseg, deleteEntryCompetenciesFor,
      deleteEntryByIdAndUser, h]

theorem PUT_authed {email pathname : String} (db : DB) (text : String) (cids : List Nat)
    (hmail : email ≠ "") (hseg : lastPathSegment pathname ≠ "") :
    PUT db (some email) pathname text cids
      = (if (db.entries.filter (fun r =>
            r.id == mysqlStringToNat (lastPathSegment pathname) && r.user == email)).length = 0
         then
           ({ db with
                entries := db.entries.map (fun r =>
                  if r.id == mysqlStringToNat (lastPathSegment pathname) && r.user == email
                  then { r with text := text } else r) },
            .notFound)
         else
           ({ db with
                entries := db.entries.map (fun r =>
                  if r.id == mysqlStringToNat (lastPathSegment pathname) && r.user == email
                  then { r with text := text } else r),
                entryCompetencies :=
                  db.entryCompetencies.filter (fun r =>
                    r.entryID != mysqlStringToNat (lastPathSegment pathname))
                  ++ cids.map (fun c => ⟨mysqlStringToNat (lastPathSegment pathname), c⟩) },
            .ok)) := by
  by_cases h : (db.entries.filter (fun r =>
      r.id == mysqlStringToNat (lastPathSegment pathname) && r.user == email)).length = 0
  · simp [PUT, authedEmail_some hmail, hseg, updateEntryText, h]
  · simp [PUT, authedEmail_some hmail, hseg, updateEntryText,
      deleteEntryCompetenciesFor, foldl_insertEntryCompetency, h]

theorem forall_no_hit {db : DB} {eid : Nat} {email : String}
    (h : ownedEntryExists db eid email = false) :
    ∀ r ∈ db.entries, (r.id == eid && r.user == email) = false := by
  intro r hr
  cases hb : (r.id == eid && r.user == email) with
  | false => rfl
  | true =>
    have ht : db.entries.any (fun r => r.id == eid && r.user == email) = true :=
      List.any_eq_true.mpr ⟨r, hr, hb⟩
    rw [ownedEntryExists] at h
    rw [h] at ht
    exact Bool.noConfusion ht

theorem filter_hit_eq_nil {db : DB} {eid : Nat} {email : String}
    (h : ownedEntryExists db eid email = false) :
    db.entries.filter (fun r => r.id == eid && r.user == email) = [] :=
  List.filter_eq_nil_iff.mpr (fun r hr => by simp [forall_no_hit h r hr])

theorem filter_hit_length_ne_zero {db : DB} {eid : Nat} {email : String}
    (h : ownedEntryExists db eid email = true) :
    (db.entries.filter (fun r => r.id == eid && r.user == email)).length ≠ 0 := by
  rw [ownedEntryExists, List.any_eq_true] at h
  rcases h with ⟨r, hr, hb⟩
  intro h0
  rw [List.length_eq_zero] at h0
  have : r ∈ db.entries.filter (fun r => r.id == eid && r.user == email) :=
    List.mem_filter.mpr ⟨hr, hb⟩
  rw [h0] at this
  exact List.not_mem_nil r this

theorem mem_selectEntriesForUser {db : DB} {e : EntryRow} {user : String}
    (he : e ∈ db.entries) (hu : e.user = user) :
    entryToOut db e ∈ selectEntriesForUser db user := by
  have h1 : e ∈ db.entries.filter (fun r => r.user == user) :=
    List.mem_filter.mpr ⟨he, by simp [hu]⟩
  have h2 : e ∈ sortByIdDesc (db.entries.filter (fun r => r.user == user)) :=
    (sortByIdDesc_perm _).mem_iff.mpr h1
  exact List.mem_map_of_mem _ h2

/-! Concrete database states used to exercise the handlers. -/

/-- A state with a tagged entry (id 1) and an untagged entry (id 2), both owned
by alice. -/
def dbTwoEntries : DB :=
  { entries := [⟨1, "alice", "tagged", 10⟩, ⟨2, "alice", "untagged", 20⟩],
    entryCompetencies := [⟨1, 5⟩],
    competencies := [⟨5, "teamwork", "d5"⟩, ⟨7, "writing", "d7"⟩],
    nextEntryId := 3 }

/-- A state with one entry (id 1) owned by alice. -/
def dbOneAlice : DB :=
  { entries := [⟨1, "alice", "hello", 10⟩],
    entryCompetencies := [⟨1, 5⟩],
    competencies := [⟨5, "teamwork", "d5"⟩],
    nextEntryId := 2 }

/-! The claims. -/

/-- C6: a GET with no authenticated identity (no session, or a session whose
email is falsy) returns the empty array with HTTP status 200 rather than 401,
while POST, PUT and DELETE all return 401 when unauthenticated. -/
theorem c6_get_unauthenticated_empty_200 (db : DB) (pathname text : String)
    (cids : List Nat) (dbNow respNow : Nat) :
    GET db none = ([], 200) ∧ GET db (some "") = ([], 200) ∧
    (POST db none text cids dbNow respNow).2.status = 401 ∧
    (POST db (some "") text cids dbNow respNow).2.status = 401 ∧
    (DELETE db none pathname).2.status = 401 ∧
    (DELETE db (some "") pathname).2.status = 401 ∧
    (PUT db none pathname text cids).2.status = 401 ∧
    (PUT db (some "") pathname text cids).2.status = 401 :=
  ⟨rfl, rfl, rfl, rfl, rfl, rfl, rfl, rfl⟩

/-- C7 counterexample: an authenticated DELETE (or PUT) whose URL is the bare
collection path /api/entry carries no trailing entry-id segment, yet the
response is 404, not 400: `pathname.split('/').pop()` yields the literal
segment "entry", which is truthy, so the MissingID guard does not fire and the
string is coerced to 0 by the database comparison. -/
theorem c7_counterexample_bare_path :
    lastPathSegment "/api/entry" = "entry" ∧
    (DELETE dbOneAlice (some "alice") "/api/entry").2.status = 404 ∧
    (DELETE dbOneAlice (some "alice") "/api/entry").2.status ≠ 400 ∧
    (PUT dbOneAlice (some "alice") "/api/entry" "edited" [5]).2.status = 404 ∧
    (PUT dbOneAlice (some "alice") "/api/entry" "edited" [5]).2.status ≠ 400 := by
  decide

/-- C7 (amended): for an authenticated DELETE or PUT, the MissingID 400
response is returned exactly when the trailing path segment is the empty
string, i.e. the path ends in a slash; a URL lacking an id segment altogether
(such as the bare collection path) extracts its last literal segment as the
id and proceeds to the database, typically producing 404. -/
theorem c7_missing_id_iff_empty_segment (db : DB) (email pathname text : String)
    (cids : List Nat) (hmail : email ≠ "") :
    ((DELETE db (some email) pathname).2 = .missingId
      ↔ lastPathSegment pathname = "") ∧
    ((PUT db (some email) pathname text cids).2 = .missingId
      ↔ lastPathSegment pathname = "") := by
  by_cases hseg : lastPathSegment pathname = ""
  · constructor
    · simp [DELETE, authedEmail_some hmail, hseg]
    · simp [PUT, authedEmail_some hmail, hseg]
  · constructor
    · rw [DELETE_authed db hmail hseg]
      constructor
      · intro h
        by_cases h0 : (db.entries.filter (fun r =>
            r.id == mysqlStringToNat (lastPathSegment pathname) && r.user == email)).length = 0
        · simp [h0] at h
        · simp [h0] at h
      · intro h; exact absurd h hseg
    · rw [PUT_authed db text cids hmail hseg]
      constructor
      · intro h
        by_cases h0 : (db.entries.filter (fun r =>
            r.id == mysqlStringToNat (lastPathSegment pathname) && r.user == email)).length = 0
        · simp [h0] at h
        · simp [h0] at h
      · intro h; exact absurd h hseg

/-- C7 witness: concrete application of the amended statement at the path
"/api/entry/" whose trailing segment is empty. -/
theorem c7_witness :
    ("alice" : String) ≠ "" ∧
    (((DELETE dbOneAlice (some "alice") "/api/entry/").2 = .missingId
        ↔ lastPathSegment "/api/entry/" = "") ∧
     ((PUT dbOneAlice (some "alice") "/api/entry/" "t" []).2 = .missingId
        ↔ lastPathSegment "/api/entry/" = "")) :=
  ⟨by decide,
   c7_missing_id_iff_empty_segment dbOneAlice "alice" "/api/entry/" "t" [] (by decide)⟩

/-- C2 (code bug): an authenticated GET does include an entry with no attached
tags, but annotates it with the one-element array holding SQL NULL — modelled
as [none] — rather than the empty competency list: JSON_ARRAYAGG(c.id) does
not drop the NULL produced by the LEFT JOIN's unmatched row, contradicting the
consumer's declared row type (competencies: number[] in the Thoughts page).
Entry 2 of dbTwoEntries has no tags; its annotation differs from []. -/
theorem c2_get_no_tags_yields_null_element :
    (GET dbTwoEntries (some "alice")).1
      = [⟨2, "untagged", 20, [none]⟩, ⟨1, "tagged", 10, [some 5]⟩] ∧
    ((GET dbTwoEntries (some "alice")).1.map (·.competencies))
      ≠ [[], [some 5]] := by
  decide

/-- C3: an authenticated PUT whose entry id matches no entry owned by the
caller responds 404 and leaves the database state unchanged: the UPDATE
matches zero rows, the handler returns before the tag delete and re-insert,
and an UPDATE matching nothing mutates nothing. -/
theorem c3_put_not_found_no_mutation (db : DB) (email pathname text : String)
    (cids : List Nat) (hmail : email ≠ "") (hseg : lastPathSegment pathname ≠ "")
    (hnone : ownedEntryExists db
      (mysqlStringToNat (lastPathSegment pathname)) email = false) :
    (PUT db (some email) pathname text cids).2 = .notFound ∧
    (PUT db (some email) pathname text cids).1 = db := by
  rw [PUT_authed db text cids hmail hseg]
  rw [filter_hit_eq_nil hnone]
  simp only [List.length_nil, if_pos rfl]
  refine ⟨rfl, ?_⟩
  have hmap := map_update_of_no_hit
    (f := fun r => { r with text := text }) (forall_no_hit hnone)
  cases db
  simp_all

/-- C3 witness: a PUT by bob against alice's entry 1 of dbOneAlice. -/
theorem c3_witness :
    (PUT dbOneAlice (some "bob") "/api/entry/1" "t" [7]).2 = .notFound ∧
    (PUT dbOneAlice (some "bob") "/api/entry/1" "t" [7]).1 = dbOneAlice :=
  c3_put_not_found_no_mutation dbOneAlice "bob" "/api/entry/1" "t" [7]
    (by decide) (by decide) (by decide)

theorem filter_eq_bne_eq_nil (l : List EntryCompetencyRow) (m : Nat) :
    l.filter (fun a => (a.entryID == m) && (a.entryID != m)) = [] := by
  refine List.filter_eq_nil_iff.mpr ?_
  intro a _
  cases hb : a.entryID == m <;> simp [bne, hb]

/-- A DELETE by an authenticated caller owning no entry under the extracted id
responds 404 with the entry table intact and every tag row of that id gone. -/
theorem DELETE_not_owned_behavior {db : DB} {email pathname : String}
    (hmail : email ≠ "") (hseg : lastPathSegment pathname ≠ "")
    (hforeign : ownedEntryExists db
      (mysqlStringToNat (lastPathSegment pathname)) email = false) :
    (DELETE db (some email) pathname).2 = .notFound ∧
    (DELETE db (some email) pathname).1.entries = db.entries ∧
    (DELETE db (some email) pathname).1.entryCompetencies
      = db.entryCompetencies.filter (fun ec =>
          ec.entryID != mysqlStringToNat (lastPathSegment pathname)) ∧
    tagsOf (DELETE db (some email) pathname).1
      (mysqlStringToNat (lastPathSegment pathname)) = [] := by
  rw [DELETE_authed db hmail hseg, filter_hit_eq_nil hforeign]
  refine ⟨by simp, ?_, by simp, ?_⟩
  · simpa using filter_keep_of_no_hit (forall_no_hit hforeign)
  · simp only [tagsOf, List.filter_filter, filter_eq_bne_eq_nil, List.map_nil]

/-- C4: an authenticated DELETE whose entry id designates an entry owned by a
different user responds 404, yet the tag delete — filtered by entry id only,
with no owner condition and executed before the owner-filtered entry delete —
has already removed every EntryCompetency row of that entry; the entry rows
themselves are untouched. -/
theorem c4_delete_foreign_owner_strips_tags (db : DB) (email pathname : String)
    (r : EntryRow) (hmail : email ≠ "") (hseg : lastPathSegment pathname ≠ "")
    (hr : r ∈ db.entries) (hrid : r.id = mysqlStringToNat (lastPathSegment pathname))
    (hrdiff : r.user ≠ email)
    (hforeign : ownedEntryExists db
      (mysqlStringToNat (lastPathSegment pathname)) email = false) :
    (DELETE db (some email) pathname).2 = .notFound ∧
    (DELETE db (some email) pathname).1.entries = db.entries ∧
    (DELETE db (some email) pathname).1.entryCompetencies
      = db.entryCompetencies.filter (fun ec =>
          ec.entryID != mysqlStringToNat (lastPathSegment pathname)) ∧
    tagsOf (DELETE db (some email) pathname).1
      (mysqlStringToNat (lastPathSegment pathname)) = [] :=
  DELETE_not_owned_behavior hmail hseg hforeign

/-- C4 witness: bob deletes alice's tagged entry 1 of dbOneAlice. -/
theorem c4_witness :
    (DELETE dbOneAlice (some "bob") "/api/entry/1").2 = .notFound ∧
    (DELETE dbOneAlice (some "bob") "/api/entry/1").1.entries = dbOneAlice.entries ∧
    (DELETE dbOneAlice (some "bob") "/api/entry/1").1.entryCompetencies
      = dbOneAlice.entryCompetencies.filter (fun ec =>
          ec.entryID != mysqlStringToNat (lastPathSegment "/api/entry/1")) ∧
    tagsOf (DELETE dbOneAlice (some "bob") "/api/entry/1").1
      (mysqlStringToNat (lastPathSegment "/api/entry/1")) = [] :=
  c4_delete_foreign_owner_strips_tags dbOneAlice "bob" "/api/entry/1"
    ⟨1, "alice", "hello", 10⟩ (by decide) (by decide) (by decide) (by decide)
    (by decide) (by decide)

/-- C5: a DELETE on an entry id owned by a different user responds 404 and the
entry row itself survives and is still returned by a GET issued by its actual
owner. -/
theorem c5_delete_foreign_owner_entry_survives (db : DB) (email pathname : String)
    (r : EntryRow) (hmail : email ≠ "") (hseg : lastPathSegment pathname ≠ "")
    (hr : r ∈ db.entries) (hrid : r.id = mysqlStringToNat (lastPathSegment pathname))
    (hrdiff : r.user ≠ email) (howner : r.user ≠ "")
    (hforeign : ownedEntryExists db
      (mysqlStringToNat (lastPathSegment pathname)) email = false) :
    (DELETE db (some email) pathname).2 = .notFound ∧
    ∃ o ∈ (GET (DELETE db (some email) pathname).1 (some r.user)).1,
      o.id = mysqlStringToNat (lastPathSegment pathname) ∧ o.text = r.text := by
  have hmain := DELETE_not_owned_behavior hmail hseg hforeign
  refine ⟨hmain.1, ?_⟩
  rw [GET_authed _ howner]
  have hr' : r ∈ (DELETE db (some email) pathname).1.entries := by
    rw [hmain.2.1]; exact hr
  refine ⟨entryToOut (DELETE db (some email) pathname).1 r,
    mem_selectEntriesForUser hr' rfl, ?_, rfl⟩
  simpa [entryToOut] using hrid

/-- C5 witness: bob deletes alice's entry 1 of dbOneAlice; alice still sees it
in her GET. -/
theorem c5_witness :
    (DELETE dbOneAlice (some "bob") "/api/entry/1").2 = .notFound ∧
    ∃ o ∈ (GET (DELETE dbOneAlice (some "bob") "/api/entry/1").1 (some "alice")).1,
      o.id = mysqlStringToNat (lastPathSegment "/api/entry/1") ∧ o.text = "hello" :=
  c5_delete_foreign_owner_entry_survives dbOneAlice "bob" "/api/entry/1"
    ⟨1, "alice", "hello", 10⟩ (by decide) (by decide) (by decide) (by decide)
    (by decide) (by decide) (by decide)

/-- C10: issuing the same authenticated DELETE twice for an entry owned by the
caller responds 200 the first time and 404 the second time — every row
matching the id and owner is removed by the first call, so the second call's
entry delete affects zero rows. -/
theorem c10_delete_twice (db : DB) (email pathname : String)
    (hmail : email ≠ "") (hseg : lastPathSegment pathname ≠ "")
    (hown : ownedEntryExists db
      (mysqlStringToNat (lastPathSegment pathname)) email = true) :
    (DELETE db (some email) pathname).2 = .ok ∧
    (DELETE (DELETE db (some email) pathname).1 (some email) pathname).2
      = .notFound := by
  constructor
  · rw [DELETE_authed db hmail hseg]
    simp only [if_neg (filter_hit_length_ne_zero hown)]
  · rw [DELETE_authed db hmail hseg]
    rw [DELETE_authed _ hmail hseg]
    simp only [List.filter_filter]
    rw [List.filter_eq_nil_iff.mpr ?_]
    · simp
    · intro a _
      cases hb : (a.id == mysqlStringToNat (lastPathSegment pathname)
          && a.user == email) <;> simp [hb]

/-- C10 witness: alice deletes her entry 1 of dbOneAlice twice. -/
theorem c10_witness :
    (DELETE dbOneAlice (some "alice") "/api/entry/1").2 = .ok ∧
    (DELETE (DELETE dbOneAlice (some "alice") "/api/entry/1").1
        (some "alice") "/api/entry/1").2 = .notFound :=
  c10_delete_twice dbOneAlice "alice" "/api/entry/1" (by decide) (by decide)
    (by decide)

/-- C8: an authenticated POST inserts exactly one Entry row owned by the
caller, then one EntryCompetency row per supplied competency id in input
order; the response carries the generated id, the text, the supplied ids, and
a createdAt taken at response construction (respNow) rather than the stored
column value (dbNow); the new entry is retrievable via GET under the returned
id. -/
theorem c8_post_insert_and_response (db : DB) (email text : String)
    (cids : List Nat) (dbNow respNow : Nat) (hmail : email ≠ "") :
    (POST db (some email) text cids dbNow respNow).2
      = .ok db.nextEntryId text respNow cids ∧
    (POST db (some email) text cids dbNow respNow).1.entries
      = db.entries ++ [⟨db.nextEntryId, email, text, dbNow⟩] ∧
    (POST db (some email) text cids dbNow respNow).1.entryCompetencies
      = db.entryCompetencies ++ cids.map (fun c => ⟨db.nextEntryId, c⟩) ∧
    ∃ o ∈ (GET (POST db (some email) text cids dbNow respNow).1 (some email)).1,
      o.id = db.nextEntryId ∧ o.text = text ∧ o.createdAt = dbNow := by
  rw [POST_authed db text cids dbNow respNow hmail]
  refine ⟨rfl, rfl, rfl, ?_⟩
  rw [GET_authed _ hmail]
  refine ⟨entryToOut _ ⟨db.nextEntryId, email, text, dbNow⟩,
    mem_selectEntriesForUser ?_ rfl, rfl, rfl, rfl⟩
  simp

/-- C8 witness: alice creates an entry tagged [5, 7] on dbOneAlice. -/
theorem c8_witness :
    (POST dbOneAlice (some "alice") "new" [5, 7] 40 41).2
      = .ok dbOneAlice.nextEntryId "new" 41 [5, 7] ∧
    (POST dbOneAlice (some "alice") "new" [5, 7] 40 41).1.entries
      = dbOneAlice.entries ++ [⟨dbOneAlice.nextEntryId, "alice", "new", 40⟩] ∧
    (POST dbOneAlice (some "alice") "new" [5, 7] 40 41).1.entryCompetencies
      = dbOneAlice.entryCompetencies
        ++ [5, 7].map (fun c => ⟨dbOneAlice.nextEntryId, c⟩) ∧
    ∃ o ∈ (GET (POST dbOneAlice (some "alice") "new" [5, 7] 40 41).1
        (some "alice")).1,
      o.id = dbOneAlice.nextEntryId ∧ o.text = "new" ∧ o.createdAt = 40 :=
  c8_post_insert_and_response dbOneAlice "alice" "new" [5, 7] 40 41 (by decide)

theorem filter_map_mk_self (m : Nat) (cids : List Nat) :
    ((cids.map (fun c => (⟨m, c⟩ : EntryCompetencyRow))).filter
        (fun r => r.entryID == m)).map (fun r => r.competencyID) = cids := by
  induction cids with
  | nil => rfl
  | cons c cs ih => simp [ih]

/-- C1: an authenticated PUT that succeeds (the target entry exists and is
owned by the caller) leaves the entry's attached competency ids exactly equal
to the competencyIDs sequence of the request body: every previously attached
tag row of that entry is deleted and one EntryCompetency row is inserted per
supplied id, in order — full replace, not a union or diff. -/
theorem c1_put_success_full_replace (db : DB) (email pathname text : String)
    (cids : List Nat) (hmail : email ≠ "") (hseg : lastPathSegment pathname ≠ "")
    (hown : ownedEntryExists db
      (mysqlStringToNat (lastPathSegment pathname)) email = true) :
    (PUT db (some email) pathname text cids).2 = .ok ∧
    tagsOf (PUT db (some email) pathname text cids).1
      (mysqlStringToNat (lastPathSegment pathname)) = cids ∧
    (PUT db (some email) pathname text cids).1.entryCompetencies
      = db.entryCompetencies.filter (fun ec =>
          ec.entryID != mysqlStringToNat (lastPathSegment pathname))
        ++ cids.map (fun c => ⟨mysqlStringToNat (lastPathSegment pathname), c⟩) := by
  rw [PUT_authed db text cids hmail hseg]
  rw [if_neg (filter_hit_length_ne_zero hown)]
  refine ⟨rfl, ?_, rfl⟩
  simp only [tagsOf, List.filter_append, List.filter_filter, filter_eq_bne_eq_nil,
    List.nil_append, List.map_append, filter_map_mk_self]

/-- C1 witness: alice edits her entry 1 of dbTwoEntries, replacing tag set
[5] by [7, 5]; the attached ids afterwards are exactly [7, 5]. -/
theorem c1_witness :
    (PUT dbTwoEntries (some "alice") "/api/entry/1" "edited" [7, 5]).2 = .ok ∧
    tagsOf (PUT dbTwoEntries (some "alice") "/api/entry/1" "edited" [7, 5]).1
      (mysqlStringToNat (lastPathSegment "/api/entry/1")) = [7, 5] ∧
    (PUT dbTwoEntries (some "alice") "/api/entry/1" "edited" [7, 5]).1.entryCompetencies
      = dbTwoEntries.entryCompetencies.filter (fun ec =>
          ec.entryID != mysqlStringToNat (lastPathSegment "/api/entry/1"))
        ++ [7, 5].map (fun c => ⟨mysqlStringToNat (lastPathSegment "/api/entry/1"), c⟩) :=
  c1_put_success_full_replace dbTwoEntries "alice" "/api/entry/1" "edited" [7, 5]
    (by decide) (by decide) (by decide)

/-- C9: the body of an authenticated GET is sorted strictly by descending
entry id (given that entry ids, being the primary key, are unique), whatever
the insertion or update order of the rows was. -/
theorem c9_get_sorted_by_id_desc (db : DB) (email : String) (hmail : email ≠ "")
    (hids : (db.entries.map (fun e => e.id)).Nodup) :
    ((GET db (some email)).1.map (fun o => o.id)).Pairwise (fun a b => a > b) := by
  rw [GET_authed db hmail]
  simp only [selectEntriesForUser, List.map_map]
  have hcomp : ((fun o : EntryOut => o.id) ∘ entryToOut db)
      = fun e : EntryRow => e.id := rfl
  rw [hcomp, List.pairwise_map]
  have hge := sortByIdDesc_pairwise (db.entries.filter (fun e => e.user == email))
  have h1 : ((db.entries.filter (fun e => e.user == email)).map
      (fun e => e.id)).Nodup :=
    List.Nodup.sublist ((List.filter_sublist _).map _) hids
  have h2 : ((sortByIdDesc (db.entries.filter
      (fun e => e.user == email))).map (fun e => e.id)).Nodup :=
    (((sortByIdDesc_perm _).map _).nodup_iff).mpr h1
  have hne : (sortByIdDesc (db.entries.filter (fun e => e.user == email))).Pairwise
      (fun a b => a.id ≠ b.id) := List.pairwise_map.mp h2
  exact (hge.and hne).imp (fun h => lt_of_le_of_ne h.1 (Ne.symm h.2))

/-- C9 witness: alice's GET on dbTwoEntries lists ids [2, 1]. -/
theorem c9_witness :
    ((GET dbTwoEntries (some "alice")).1.map (fun o => o.id)).Pairwise
      (fun a b => a > b) :=
  c9_get_sorted_by_id_desc dbTwoEntries "alice" (by decide) (by decide)

end EntryService
